import Mathlib

/-!
Shallow embedding of `src/app.py` (domain page counter).

The embedded functions keep the source's names where Lean allows:
`clean_domain`, `get_page_count`, `process_domains_batch`.  Network I/O is
modelled by a `World` function from URLs to fetch outcomes; parsed sitemap
XML documents are abstracted to exactly the data the source inspects: the
list of `sitemap` entries found (each with an optional `loc` child text)
and the number of `url` elements found.

String operations are implemented over `String.data` (lists of characters)
so that all definitions evaluate inside the kernel.
-/

namespace PageCounter

/-- Kernel-computable test that `p` is an initial segment of `s`. -/
def listIsInit : List Char → List Char → Bool
  | [], _ => true
  | _ :: _, [] => false
  | a :: as, b :: bs => a == b && listIsInit as bs

/-- `s.startswith(p)` over the character lists. -/
def strStarts (s p : String) : Bool := listIsInit p.data s.data

/-- Drop the first `n` characters. -/
def strDropN (s : String) (n : Nat) : String := ⟨s.data.drop n⟩

/-- Keep the first `n` characters, as Python `s[:n]`. -/
def strTakeN (s : String) (n : Nat) : String := ⟨s.data.take n⟩

/-- Python `str.strip()`: remove whitespace from both ends. -/
def strTrim (s : String) : String :=
  ⟨((s.data.dropWhile Char.isWhitespace).reverse.dropWhile Char.isWhitespace).reverse⟩

/-- Python `str.lower()` (ASCII case mapping). -/
def strLower (s : String) : String := ⟨s.data.map Char.toLower⟩

/-- Python `str.rstrip('/')`: remove all trailing slash characters. -/
def rstripSlashes (s : String) : String :=
  ⟨(s.data.reverse.dropWhile (· == '/')).reverse⟩

/-- `urlparse(url).netloc` for a URL whose scheme has been removed:
the characters up to the first path, query or fragment delimiter. -/
def netlocChars (rest : List Char) : List Char :=
  rest.takeWhile (fun c => !(c == '/' || c == '?' || c == '#'))

/-- Embedding of `clean_domain` (src/app.py lines 20-38).  `none` models
Python `None`; the empty string is falsy in Python, hence the early return. -/
def clean_domain (input : Option String) : Option String :=
  match input with
  | none => none
  | some s =>
    if s = "" then none
    else
      let t := strTrim s
      let dom :=
        if strStarts t "http://" then (⟨netlocChars (t.data.drop 7)⟩ : String)
        else if strStarts t "https://" then (⟨netlocChars (t.data.drop 8)⟩ : String)
        else t
      let dom := strLower dom
      let dom := if strStarts dom "www." then strDropN dom 4 else dom
      let dom := rstripSlashes dom
      if dom = "" then none else some dom

/-- Modelled from the spec (section 4.1): the Normalizer algorithm exactly as
the spec words it, used to compare against the source's `clean_domain`:
trim; take the URL host when an HTTP/HTTPS scheme is present, else the whole
trimmed string; lower-case; strip a leading `www.`; strip trailing `/`;
an empty result yields no Domain. -/
def spec_normalize (s : String) : Option String :=
  let t := strTrim s
  let host :=
    if strStarts t "http://" then (⟨netlocChars (t.data.drop 7)⟩ : String)
    else if strStarts t "https://" then (⟨netlocChars (t.data.drop 8)⟩ : String)
    else t
  let host := strLower host
  let host := if strStarts host "www." then strDropN host 4 else host
  let host := rstripSlashes host
  if host = "" then none else some host

/-- Abstraction of a parsed sitemap XML tree, holding exactly what
`get_page_count` reads from it: the `sitemap` entries found by
`findall` in the sitemap 0.9 namespace (each entry carrying the text of its
`loc` child when that child exists), and the number of `url` elements found. -/
structure SitemapDoc where
  sitemaps : List (Option String)
  urls : Nat
deriving DecidableEq

/-- Result of parsing a response body with `ElementTree.fromstring`. -/
inductive Body where
  | malformed
  | xml (doc : SitemapDoc)
deriving DecidableEq

/-- Outcome of one `session.get(url)`: an exception
(`requests.RequestException` or a timeout), or a response with a status
code and a body. -/
inductive Fetch where
  | exn
  | resp (status : Nat) (body : Body)
deriving DecidableEq

/-- The network: what each URL returns when fetched. -/
def World := String → Fetch

/-- True when a candidate fetch succeeds end to end: status 200 and a body
that parses as XML.  Anything else makes the loop skip to the next
candidate. -/
def fetchParses (f : Fetch) : Bool :=
  match f with
  | .resp status (.xml _) => status == 200
  | _ => false

/-- The pages contributed by one child sitemap URL in the index loop:
its `url` element count when the fetch returns 200 and parses, else 0. -/
def childPageCount (w : World) (url : String) : Nat :=
  match w url with
  | .resp status (.xml doc) => if status = 200 then doc.urls else 0
  | _ => 0

/-- One iteration of the child-sitemap loop (src/app.py lines 84-91): add
the child's `url` count to the running total on a 200 response with
well-formed XML, leave the total unchanged on any failure. -/
def expandStep (w : World) (total : Nat) (url : String) : Nat :=
  match w url with
  | .exn => total
  | .resp status body =>
    if status = 200 then
      match body with
      | .xml doc => total + doc.urls
      | .malformed => total
    else total

/-- Embedding of the child-sitemap loop (src/app.py lines 83-91): a running
total over the given URLs, where a failed or malformed child contributes
nothing.  The caller passes the first 10 `loc` URLs only. -/
def expandIndex (w : World) (locs : List String) : Nat :=
  locs.foldl (expandStep w) 0

/-- The method label for a sitemap index with `n` collected child locations. -/
def mkIndexMethod (n : Nat) : String :=
  "Sitemap index (" ++ toString n ++ " sitemaps)"

/-- The method label for a task that raised: `f'Error: \x7bstr(e)[:50]\x7d'`. -/
def mkErrorMethod (msg : String) : String :=
  "Error: " ++ strTakeN msg 50

/-- The four candidate sitemap URLs, in the fixed order of src/app.py
lines 46-51. -/
def candidateUrls (d : String) : List String :=
  ["https://" ++ d ++ "/sitemap.xml",
   "https://www." ++ d ++ "/sitemap.xml",
   "https://" ++ d ++ "/sitemap_index.xml",
   "https://www." ++ d ++ "/sitemap_index.xml"]

/-- The homepage URL used by the fallback probe. -/
def homepageUrl (d : String) : String := "https://" ++ d

/-- What the candidate loop produces: the accumulated page total, the method
label, and the URLs requested (in request order). -/
structure ResolveOut where
  total : Nat
  method : String
  requests : List String
deriving DecidableEq

/-- Embedding of the candidate loop of `get_page_count`
(src/app.py lines 63-106).  An exception, a non-200 status or malformed XML
skips to the next candidate; the first candidate that returns 200 with
well-formed XML is classified (index when any `sitemap` entry was found,
leaf otherwise) and the loop breaks.  In the index branch the entries with
a `loc` child are collected and the first 10 are fetched. -/
def tryCandidates (w : World) : List String → ResolveOut
  | [] => ⟨0, "No sitemap found", []⟩
  | url :: rest =>
    match w url with
    | .exn =>
      let r := tryCandidates w rest
      ⟨r.total, r.method, url :: r.requests⟩
    | .resp status body =>
      if status = 200 then
        match body with
        | .malformed =>
          let r := tryCandidates w rest
          ⟨r.total, r.method, url :: r.requests⟩
        | .xml doc =>
          if doc.sitemaps.isEmpty then
            ⟨doc.urls, "Single sitemap", [url]⟩
          else
            let locs := (doc.sitemaps.filterMap id).take 10
            ⟨expandIndex w locs, mkIndexMethod (doc.sitemaps.filterMap id).length,
             url :: locs⟩
      else
        let r := tryCandidates w rest
        ⟨r.total, r.method, url :: r.requests⟩

/-- Embedding of the fallback probe (src/app.py lines 108-117), reached when
`total_pages == 0`: a 200 homepage response overwrites the result with
`(1, "Homepage only (estimate)")`; an exception only rewrites the method to
`"Domain inaccessible"`; a non-200 response changes nothing. -/
def fallbackProbe (w : World) (d : String) (total : Nat) (method : String) :
    Nat × String :=
  match w (homepageUrl d) with
  | .exn => (total, "Domain inaccessible")
  | .resp status _ =>
    if status = 200 then (1, "Homepage only (estimate)") else (total, method)

/-- Embedding of `get_page_count` (src/app.py lines 40-118).  Returns the
`(total_pages, method)` pair together with the list of URLs requested.
`none` and the empty string are the falsy Python arguments. -/
def get_page_count (domain : Option String) (w : World) :
    (Nat × String) × List String :=
  match domain with
  | none => ((0, "Invalid domain"), [])
  | some d =>
    if d = "" then ((0, "Invalid domain"), [])
    else
      let r := tryCandidates w (candidateUrls d)
      if r.total = 0 then
        (fallbackProbe w d r.total r.method, r.requests ++ [homepageUrl d])
      else
        ((r.total, r.method), r.requests)

/-- What a submitted worker task does, as observed at the future boundary:
return a `(pages, method)` value, raise `concurrent.futures.TimeoutError`,
or raise some other exception carrying a message. -/
inductive TaskOutcome where
  | value (pages : Nat) (method : String)
  | timeoutErr
  | err (msg : String)
deriving DecidableEq

/-- One submitted task: its domain, its wall-clock completion time in
seconds from batch start (`none` when it never finishes), and its outcome. -/
structure TaskSpec where
  domain : String
  done : Option Nat
  outcome : TaskOutcome
deriving DecidableEq

/-- One record appended to `results` in `process_domains_batch`. -/
structure DomainResult where
  domain : String
  pages : Nat
  method : String
deriving DecidableEq

/-- The body of the `as_completed` loop for one yielded future
(src/app.py lines 133-152).  A future yielded by `as_completed` is already
finished, so `future.result(timeout=25)` returns or re-raises immediately:
the `TimeoutError` branch fires only when the task itself raised
`concurrent.futures.TimeoutError`. -/
def handleCompleted (t : TaskSpec) : DomainResult :=
  match t.outcome with
  | .value p m => ⟨t.domain, p, m⟩
  | .timeoutErr => ⟨t.domain, 0, "Timeout"⟩
  | .err msg => ⟨t.domain, 0, mkErrorMethod msg⟩

/-- Whether a task's future is finished within `deadline` seconds. -/
def finishedBy (t : TaskSpec) (deadline : Nat) : Bool :=
  match t.done with
  | some n => n ≤ deadline
  | none => false

/-- Sort key: the completion time of a finished task. -/
def doneKey (t : TaskSpec) : Nat :=
  match t.done with
  | some n => n
  | none => 0

/-- The overall timeout handed to `as_completed` (src/app.py line 132). -/
def BATCH_TIMEOUT : Nat := 300

/-- Embedding of `process_domains_batch` (src/app.py lines 120-158).
`as_completed(futures, timeout=300)` yields futures in completion order and
raises `concurrent.futures.TimeoutError` once the 300-second window closes
with futures still unfinished; that exception is not caught anywhere in the
function, so it escapes and the accumulated `results` list is lost.  When
every task finishes in time the loop handles each yielded future and the
full result list is returned. -/
def process_domains_batch (tasks : List TaskSpec) :
    Except String (List DomainResult) :=
  if tasks.all (fun t => finishedBy t BATCH_TIMEOUT) then
    .ok ((List.insertionSort (fun a b => doneKey a ≤ doneKey b) tasks).map
      handleCompleted)
  else
    .error "concurrent.futures.TimeoutError"

/-- The closed set of method labels named by the spec: the four fixed
labels, the index family, and the error family. -/
def ClosedMethod (m : String) : Prop :=
  m = "Single sitemap" ∨ m = "Homepage only (estimate)" ∨
  m = "Domain inaccessible" ∨ m = "Timeout" ∨
  (∃ n : Nat, m = mkIndexMethod n) ∨ (∃ s : String, m = "Error: " ++ s)

deriving instance DecidableEq for Except

/-- A network where every URL answers 404 with an unparsable body: every
sitemap candidate is skipped and the homepage probe returns a non-200
response without raising. -/
def w404 : World := fun _ => .resp 404 .malformed

/-- A network whose first sitemap candidate is a leaf sitemap with zero
`url` elements and whose every other URL (the homepage included) answers
404. -/
def w9 : World := fun u =>
  if u = "https://a.com/sitemap.xml" then .resp 200 (.xml ⟨[], 0⟩)
  else .resp 404 .malformed

/-- A network whose first sitemap candidate is a sitemap index with two
`sitemap` entries, one of which has no `loc` child, and whose single listed
child sitemap holds 7 `url` elements. -/
def w7 : World := fun u =>
  if u = "https://a.com/sitemap.xml" then
    .resp 200 (.xml ⟨[some "https://a.com/s1.xml", none], 0⟩)
  else if u = "https://a.com/s1.xml" then .resp 200 (.xml ⟨[], 7⟩)
  else .exn

/-- A network where every URL answers 200 with a well-formed leaf sitemap
containing zero `url` elements. -/
def wZero : World := fun _ => .resp 200 (.xml ⟨[], 0⟩)

/-- Child-sitemap network for the partial-failure scenario: two children
parse with 10 and 20 `url` elements, every other URL raises. -/
def wMix : World := fun u =>
  if u = "u1" then .resp 200 (.xml ⟨[], 10⟩)
  else if u = "u3" then .resp 200 (.xml ⟨[], 20⟩)
  else .exn

/-- A sitemap index document listing 12 children, all with `loc` children. -/
def docTwelve : SitemapDoc := ⟨List.replicate 12 (some "c"), 0⟩

/-- A network serving `docTwelve` at the first candidate URL. -/
def wTwelve : World := fun u =>
  if u = "https://a.com/sitemap.xml" then .resp 200 (.xml docTwelve)
  else .exn

/-- A batch whose first task completes only after 30 seconds (past the
claimed 25-second per-task ceiling) with a normal value. -/
def slowBatch : List TaskSpec :=
  [⟨"slow.com", some 30, .value 5 "Single sitemap"⟩,
   ⟨"fast.com", some 1, .value 2 "Single sitemap"⟩]

/-- A successful parse is exactly a 200 response with well-formed XML. -/
theorem exists_of_fetchParses {f : Fetch} (h : fetchParses f = true) :
    ∃ doc, f = .resp 200 (.xml doc) := by
  cases f with
  | exn => simp [fetchParses] at h
  | resp status body =>
    cases body with
    | malformed => simp [fetchParses] at h
    | xml doc =>
      simp [fetchParses] at h
      exact ⟨doc, by rw [h]⟩

/-- A candidate that raises, returns non-200, or fails to parse makes the
loop move on: the outcome over `url :: rest` is the outcome over `rest`,
with `url` recorded as requested. -/
theorem tryCandidates_skip (w : World) (url : String) (rest : List String)
    (h : fetchParses (w url) = false) :
    tryCandidates w (url :: rest) =
      ⟨(tryCandidates w rest).total, (tryCandidates w rest).method,
       url :: (tryCandidates w rest).requests⟩ := by
  cases hw : w url with
  | exn => simp [tryCandidates, hw]
  | resp status body =>
    cases body with
    | malformed =>
      simp only [tryCandidates, hw]
      split <;> rfl
    | xml doc =>
      rw [hw] at h
      simp [fetchParses] at h
      simp only [tryCandidates, hw]
      rw [if_neg h]

/-- When every candidate fails, the loop falls through with a zero count,
the initial method label, and every candidate requested once, in order. -/
theorem tryCandidates_allFail (w : World) :
    ∀ urls : List String, (∀ u ∈ urls, fetchParses (w u) = false) →
      tryCandidates w urls = ⟨0, "No sitemap found", urls⟩ := by
  intro urls
  induction urls with
  | nil => intro _; rfl
  | cons url rest ih =>
    intro h
    rw [tryCandidates_skip w url rest (h url (by simp)),
        ih (fun u hu => h u (by simp [hu]))]

/-- The first candidate that returns 200 with well-formed XML settles the
resolution: index classification when a `sitemap` entry was found, leaf
classification otherwise, and the loop breaks. -/
theorem tryCandidates_success (w : World) (url : String) (rest : List String)
    (doc : SitemapDoc) (h : w url = .resp 200 (.xml doc)) :
    tryCandidates w (url :: rest) =
      if doc.sitemaps.isEmpty then ⟨doc.urls, "Single sitemap", [url]⟩
      else
        ⟨expandIndex w ((doc.sitemaps.filterMap id).take 10),
         mkIndexMethod ((doc.sitemaps.filterMap id).length),
         url :: (doc.sitemaps.filterMap id).take 10⟩ := by
  simp only [tryCandidates, h]
  split
  · rfl
  · simp_all

/-- Splitting form of the two lemmas above: failing candidates before the
first successful one are each requested once and skipped, the successful
candidate settles the outcome, and the candidates after it never appear
among the requests. -/
theorem tryCandidates_firstSuccess (w : World) (pre : List String)
    (url : String) (rest : List String) (doc : SitemapDoc)
    (hpre : ∀ u ∈ pre, fetchParses (w u) = false)
    (h : w url = .resp 200 (.xml doc)) :
    tryCandidates w (pre ++ url :: rest) =
      if doc.sitemaps.isEmpty then ⟨doc.urls, "Single sitemap", pre ++ [url]⟩
      else
        ⟨expandIndex w ((doc.sitemaps.filterMap id).take 10),
         mkIndexMethod ((doc.sitemaps.filterMap id).length),
         pre ++ url :: (doc.sitemaps.filterMap id).take 10⟩ := by
  induction pre with
  | nil => simpa using tryCandidates_success w url rest doc h
  | cons p ps ih =>
    rw [List.cons_append, tryCandidates_skip w p _ (hpre p (by simp)),
        ih (fun u hu => hpre u (by simp [hu]))]
    split <;> try rfl

/-- One loop iteration adds exactly the child's contribution. -/
theorem expandStep_eq (w : World) (total : Nat) (url : String) :
    expandStep w total url = total + childPageCount w url := by
  cases hw : w url with
  | exn => simp [expandStep, childPageCount, hw]
  | resp status body =>
    cases body with
    | malformed => simp [expandStep, childPageCount, hw]
    | xml doc =>
      simp only [expandStep, childPageCount, hw]
      split <;> simp

/-- The child loop computes the sum of the per-child contributions. -/
theorem expandIndex_eq_sum (w : World) (locs : List String) :
    expandIndex w locs = (locs.map (childPageCount w)).sum := by
  suffices h : ∀ (l : List String) (a : Nat),
      l.foldl (expandStep w) a = a + (l.map (childPageCount w)).sum by
    simpa using h locs 0
  intro l
  induction l with
  | nil => intro a; simp
  | cons u us ih =>
    intro a
    simp [List.foldl_cons, expandStep_eq, ih, Nat.add_assoc]

/-- A failed child contributes nothing to the sum. -/
theorem childPageCount_eq_zero (w : World) (u : String)
    (h : fetchParses (w u) = false) : childPageCount w u = 0 := by
  cases hw : w u with
  | exn => simp [childPageCount, hw]
  | resp status body =>
    cases body with
    | malformed => simp [childPageCount, hw]
    | xml doc =>
      rw [hw] at h
      simp [fetchParses] at h
      simp [childPageCount, hw, h]

/-- The candidate loop only ever leaves one of three method labels. -/
theorem tryCandidates_method (w : World) (urls : List String) :
    (tryCandidates w urls).method = "No sitemap found" ∨
    (tryCandidates w urls).method = "Single sitemap" ∨
    ∃ n, (tryCandidates w urls).method = mkIndexMethod n := by
  induction urls with
  | nil => exact Or.inl rfl
  | cons url rest ih =>
    by_cases hf : fetchParses (w url) = true
    · obtain ⟨doc, hdoc⟩ := exists_of_fetchParses hf
      rw [tryCandidates_success w url rest doc hdoc]
      by_cases he : doc.sitemaps.isEmpty
      · rw [if_pos he]; exact Or.inr (Or.inl rfl)
      · rw [if_neg he]
        exact Or.inr (Or.inr ⟨(doc.sitemaps.filterMap id).length, rfl⟩)
    · rw [tryCandidates_skip w url rest (by simpa using hf)]
      exact ih

/-- The label `"No sitemap found"` lies outside the spec's closed set. -/
theorem noSitemapFound_not_closed : ¬ ClosedMethod "No sitemap found" := by
  rintro (h | h | h | h | ⟨n, h⟩ | ⟨s, h⟩) <;>
  · first
    | exact absurd h (by decide)
    | (have h2 := congrArg String.data h
       simp [mkIndexMethod, String.data_append] at h2)

/-- The label `"Invalid domain"` lies outside the spec's closed set. -/
theorem invalidDomain_not_closed : ¬ ClosedMethod "Invalid domain" := by
  rintro (h | h | h | h | ⟨n, h⟩ | ⟨s, h⟩) <;>
  · first
    | exact absurd h (by decide)
    | (have h2 := congrArg String.data h
       simp [mkIndexMethod, String.data_append] at h2)

/-- For a non-empty domain, the method that `get_page_count` returns is
either in the spec's closed set or the loop's initial `"No sitemap found"`
label. -/
theorem get_page_count_method (d : String) (hd : ¬ d = "") (w : World) :
    ClosedMethod (get_page_count (some d) w).1.2 ∨
    (get_page_count (some d) w).1.2 = "No sitemap found" := by
  have hcases := tryCandidates_method w (candidateUrls d)
  simp only [get_page_count, if_neg hd]
  by_cases h0 : (tryCandidates w (candidateUrls d)).total = 0
  · rw [if_pos h0]
    cases hw : w (homepageUrl d) with
    | exn =>
      simp only [fallbackProbe, hw]
      exact Or.inl (Or.inr (Or.inr (Or.inl rfl)))
    | resp status body =>
      by_cases hs : status = 200
      · simp only [fallbackProbe, hw, if_pos hs]
        exact Or.inl (Or.inr (Or.inl rfl))
      · simp only [fallbackProbe, hw, if_neg hs]
        rcases hcases with h | h | ⟨n, h⟩
        · exact Or.inr h
        · exact Or.inl (Or.inl h)
        · exact Or.inl (Or.inr (Or.inr (Or.inr (Or.inr (Or.inl ⟨n, h⟩)))))
  · rw [if_neg h0]
    rcases hcases with h | h | ⟨n, h⟩
    · exact Or.inr h
    · exact Or.inl (Or.inl h)
    · exact Or.inl (Or.inr (Or.inr (Or.inr (Or.inr (Or.inl ⟨n, h⟩)))))

/-- Handling a completed future keeps the task's domain. -/
@[simp] theorem handleCompleted_domain (t : TaskSpec) :
    (handleCompleted t).domain = t.domain := by
  cases t with
  | mk d dn oc => cases oc <;> rfl

/-- When every future finishes inside the batch window, the orchestrator
returns the handled results in completion order. -/
theorem process_domains_batch_ok (tasks : List TaskSpec)
    (h : tasks.all (fun t => finishedBy t BATCH_TIMEOUT) = true) :
    process_domains_batch tasks =
      .ok ((List.insertionSort (fun a b => doneKey a ≤ doneKey b) tasks).map
        handleCompleted) := by
  simp [process_domains_batch, h]

/-- When some future is still unfinished at the batch deadline, the
iterator raises and the exception escapes the orchestrator. -/
theorem process_domains_batch_err (tasks : List TaskSpec)
    (h : ¬ tasks.all (fun t => finishedBy t BATCH_TIMEOUT) = true) :
    process_domains_batch tasks = .error "concurrent.futures.TimeoutError" := by
  simp [process_domains_batch, h]


/-- C1 counterexample: a batch with one finished task (at 10s) and one task
that never finishes.  At the 300-second deadline `as_completed` raises and
the exception escapes `process_domains_batch`: the caller gets an error,
not the completed result for `a.com`. -/
theorem C1_counterexample :
    process_domains_batch
      [⟨"a.com", some 10, .value 5 "Single sitemap"⟩, ⟨"b.com", none, .value 0 "m"⟩] =
      .error "concurrent.futures.TimeoutError" := by decide

/-- C1 (amended): if the whole-batch deadline of 300 seconds is exceeded
while some task is still outstanding, `as_completed` raises
`concurrent.futures.TimeoutError`; nothing in `process_domains_batch`
catches it, so the exception escapes and the caller receives none of the
results completed so far. -/
theorem C1_batch_timeout_raises (tasks : List TaskSpec)
    (h : ∃ t ∈ tasks, finishedBy t BATCH_TIMEOUT = false) :
    process_domains_batch tasks = .error "concurrent.futures.TimeoutError" := by
  apply process_domains_batch_err
  intro hall
  obtain ⟨t, ht, hf⟩ := h
  rw [List.all_eq_true] at hall
  exact absurd (hall t ht) (by simp [hf])

/-- C1 witness: the amended theorem applied to a concrete one-task batch
whose task never finishes. -/
theorem C1_witness :
    process_domains_batch [⟨"a.com", none, .value 0 "m"⟩] =
      .error "concurrent.futures.TimeoutError" :=
  C1_batch_timeout_raises [⟨"a.com", none, .value 0 "m"⟩]
    ⟨⟨"a.com", none, .value 0 "m"⟩, by decide, rfl⟩

/-- C2 counterexample: a domain whose four sitemap candidates all answer
404 and whose homepage also answers 404 without raising is recorded with
method `"No sitemap found"`, a label outside the claimed closed set. -/
theorem C2_counterexample :
    process_domains_batch
      [⟨"a.com", some 1, .value (get_page_count (some "a.com") w404).1.1
        (get_page_count (some "a.com") w404).1.2⟩] =
      .ok [⟨"a.com", 0, "No sitemap found"⟩] ∧
    ¬ ClosedMethod "No sitemap found" :=
  ⟨by decide, noSitemapFound_not_closed⟩

/-- C2 (amended): when every task of the batch finishes within the
whole-batch deadline, the orchestrator returns exactly one result record
per input domain (the output domains are a permutation of the input
domains), each with a non-negative page count and a method drawn from the
closed set extended with the label `"No sitemap found"` (reached when the
resolution finds nothing and the homepage probe returns a non-200 response
without raising). -/
theorem C2_one_result_per_domain (tasks : List TaskSpec) (w : World)
    (hdom : ∀ t ∈ tasks, ¬ t.domain = "")
    (hval : ∀ t ∈ tasks, ∀ p m, t.outcome = .value p m →
      (p, m) = (get_page_count (some t.domain) w).1)
    (hfin : tasks.all (fun t => finishedBy t BATCH_TIMEOUT) = true) :
    ∃ results, process_domains_batch tasks = .ok results ∧
      List.Perm (results.map (fun r => r.domain)) (tasks.map (fun t => t.domain)) ∧
      ∀ r ∈ results, 0 ≤ r.pages ∧
        (ClosedMethod r.method ∨ r.method = "No sitemap found") := by
  refine ⟨_, process_domains_batch_ok tasks hfin, ?_, ?_⟩
  · have hperm := List.perm_insertionSort (fun a b => doneKey a ≤ doneKey b) tasks
    have h1 : ((List.insertionSort (fun a b => doneKey a ≤ doneKey b) tasks).map
          handleCompleted).map (fun r => r.domain) =
        (List.insertionSort (fun a b => doneKey a ≤ doneKey b) tasks).map
          (fun t => t.domain) := by
      simp [List.map_map, Function.comp]
    rw [h1]
    exact hperm.map _
  · intro r hr
    rw [List.mem_map] at hr
    obtain ⟨t, ht, hrt⟩ := hr
    have htasks : t ∈ tasks :=
      (List.perm_insertionSort (fun a b => doneKey a ≤ doneKey b) tasks).mem_iff.mp ht
    subst hrt
    refine ⟨Nat.zero_le _, ?_⟩
    cases hoc : t.outcome with
    | value p m =>
      have hm := hval t htasks p m hoc
      have hm2 : m = (get_page_count (some t.domain) w).1.2 := congrArg Prod.snd hm
      have : (handleCompleted t).method = m := by simp [handleCompleted, hoc]
      rw [this, hm2]
      exact get_page_count_method t.domain (hdom t htasks) w
    | timeoutErr =>
      have : (handleCompleted t).method = "Timeout" := by simp [handleCompleted, hoc]
      rw [this]
      exact Or.inl (Or.inr (Or.inr (Or.inr (Or.inl rfl))))
    | err msg =>
      have : (handleCompleted t).method = mkErrorMethod msg := by
        simp [handleCompleted, hoc]
      rw [this]
      exact Or.inl (Or.inr (Or.inr (Or.inr (Or.inr (Or.inr ⟨strTakeN msg 50, rfl⟩)))))

/-- C2 witness: the amended theorem applied to a concrete one-task batch
resolved against the all-404 network. -/
theorem C2_witness :
    ∃ results,
      process_domains_batch [⟨"a.com", some 1, .value 0 "No sitemap found"⟩] =
        .ok results ∧
      List.Perm (results.map (fun r => r.domain))
        (([⟨"a.com", some 1, .value 0 "No sitemap found"⟩] : List TaskSpec).map
          (fun t => t.domain)) ∧
      ∀ r ∈ results, 0 ≤ r.pages ∧
        (ClosedMethod r.method ∨ r.method = "No sitemap found") :=
  C2_one_result_per_domain [⟨"a.com", some 1, .value 0 "No sitemap found"⟩] w404
    (by decide)
    (by
      intro t ht p m h
      simp only [List.mem_singleton] at ht
      subst ht
      injection h with hp hm
      subst hp
      subst hm
      decide)
    (by decide)

/-- C3 counterexample: with every URL answering 404 without raising, the
fallback probe runs and yields `(0, "No sitemap found")` - neither of the
two outcomes the claim allows. -/
theorem C3_counterexample :
    fallbackProbe w404 "a.com" 0 "No sitemap found" = (0, "No sitemap found") ∧
    (get_page_count (some "a.com") w404).1 = (0, "No sitemap found") ∧
    ((0, "No sitemap found") : Nat × String) ≠ (1, "Homepage only (estimate)") ∧
    ((0, "No sitemap found") : Nat × String) ≠ (0, "Domain inaccessible") := by
  decide

/-- C3 (amended): whenever the fallback probe runs (the resolution total is
0), there are three possible outcomes: a 200 homepage response yields
`(1, "Homepage only (estimate)")`; an exception from the probe yields
`(0, "Domain inaccessible")`; and a non-200 homepage response leaves the
count 0 and the method from the resolution phase unchanged.  In every case
the homepage is requested after the candidates. -/
theorem C3_fallback_outcomes (w : World) (d : String) (hd : ¬ d = "")
    (h0 : (tryCandidates w (candidateUrls d)).total = 0) :
    ((∃ b, w (homepageUrl d) = .resp 200 b) →
      (get_page_count (some d) w).1 = (1, "Homepage only (estimate)")) ∧
    (w (homepageUrl d) = .exn →
      (get_page_count (some d) w).1 = (0, "Domain inaccessible")) ∧
    (∀ st b, w (homepageUrl d) = .resp st b → ¬ st = 200 →
      (get_page_count (some d) w).1 =
        (0, (tryCandidates w (candidateUrls d)).method)) ∧
    (get_page_count (some d) w).2 =
      (tryCandidates w (candidateUrls d)).requests ++ [homepageUrl d] := by
  simp only [get_page_count, if_neg hd, if_pos h0]
  refine ⟨?_, ?_, ?_, trivial⟩
  · rintro ⟨b, hb⟩
    simp [fallbackProbe, hb]
  · intro hb
    simp only [fallbackProbe, hb]
    rw [h0]
  · intro st b hb hst
    simp only [fallbackProbe, hb, if_neg hst]
    rw [h0]

/-- C3 witness: the amended theorem's non-200 case applied to the all-404
network. -/
theorem C3_witness :
    (get_page_count (some "a.com") w404).1 =
      (0, (tryCandidates w404 (candidateUrls "a.com")).method) :=
  (C3_fallback_outcomes w404 "a.com" (by decide) (by decide)).2.2.1
    404 .malformed rfl (by decide)

/-- C4: the 25-second per-task ceiling is dead code.  `future.result` is
called with `timeout=25` only on futures already yielded by `as_completed`,
which are finished, so the call returns immediately: a task that took 30
seconds (past the claimed ceiling) is recorded with its own result, and no
record carries the method `"Timeout"`. -/
theorem C4_task_ceiling_dead :
    process_domains_batch slowBatch =
      .ok [⟨"fast.com", 2, "Single sitemap"⟩, ⟨"slow.com", 5, "Single sitemap"⟩] ∧
    (([⟨"fast.com", 2, "Single sitemap"⟩, ⟨"slow.com", 5, "Single sitemap"⟩] :
        List DomainResult).all (fun r => !(r.method == "Timeout"))) = true := by
  decide

/-- C5: the resolver builds exactly the four candidate URLs in the fixed
order bare/`www.` times `sitemap.xml`/`sitemap_index.xml`; a candidate that
raises, returns non-200, or fails to parse is requested once and skipped
with no retry; when every candidate fails, all four are requested in order;
and the first candidate whose body parses determines the outcome, with the
candidates after it never requested. -/
theorem C5_candidate_order (w : World) (d : String) :
    candidateUrls d =
      ["https://" ++ d ++ "/sitemap.xml",
       "https://www." ++ d ++ "/sitemap.xml",
       "https://" ++ d ++ "/sitemap_index.xml",
       "https://www." ++ d ++ "/sitemap_index.xml"] ∧
    ((∀ u ∈ candidateUrls d, fetchParses (w u) = false) →
      tryCandidates w (candidateUrls d) = ⟨0, "No sitemap found", candidateUrls d⟩) ∧
    (∀ pre url rest doc, candidateUrls d = pre ++ url :: rest →
      (∀ u ∈ pre, fetchParses (w u) = false) →
      w url = .resp 200 (.xml doc) →
      tryCandidates w (candidateUrls d) =
        if doc.sitemaps.isEmpty then ⟨doc.urls, "Single sitemap", pre ++ [url]⟩
        else
          ⟨expandIndex w ((doc.sitemaps.filterMap id).take 10),
           mkIndexMethod ((doc.sitemaps.filterMap id).length),
           pre ++ url :: (doc.sitemaps.filterMap id).take 10⟩) := by
  refine ⟨rfl, tryCandidates_allFail w (candidateUrls d), ?_⟩
  intro pre url rest doc heq hpre hu
  rw [heq]
  exact tryCandidates_firstSuccess w pre url rest doc hpre hu

/-- C5 witness: the all-fail clause applied to the all-404 network. -/
theorem C5_witness :
    tryCandidates w404 (candidateUrls "a.com") =
      ⟨0, "No sitemap found", candidateUrls "a.com"⟩ :=
  (C5_candidate_order w404 "a.com").2.1 (by decide)

/-- C6 counterexample: a single child sitemap that is fetched and parsed
successfully but contains zero `url` elements makes the expander return 0
even though a child succeeded - refuting "0 is returned only when no child
succeeds". -/
theorem C6_counterexample :
    expandIndex wZero ["https://a.com/s1.xml"] = 0 ∧
    fetchParses (wZero "https://a.com/s1.xml") = true ∧
    childPageCount wZero "https://a.com/s1.xml" = 0 := by decide

/-- C6 (amended): the expander fetches at most the first 10 child URLs of
the index (children beyond the tenth are never requested) and returns the
sum of the per-child contributions, where a child that fails (exception,
non-200 status, or malformed XML) contributes 0; hence it returns 0 when no
child succeeds (and also when every successful child holds zero `url`
elements). -/
theorem C6_index_expander_sum (w : World) (locs : List String) :
    expandIndex w locs = (locs.map (childPageCount w)).sum ∧
    (∀ u, fetchParses (w u) = false → childPageCount w u = 0) ∧
    ((∀ u ∈ locs, fetchParses (w u) = false) → expandIndex w locs = 0) ∧
    (∀ url doc rest, w url = .resp 200 (.xml doc) → doc.sitemaps.isEmpty = false →
      tryCandidates w (url :: rest) =
        ⟨expandIndex w ((doc.sitemaps.filterMap id).take 10),
         mkIndexMethod ((doc.sitemaps.filterMap id).length),
         url :: (doc.sitemaps.filterMap id).take 10⟩) := by
  refine ⟨expandIndex_eq_sum w locs, fun u => childPageCount_eq_zero w u, ?_, ?_⟩
  · intro hall
    rw [expandIndex_eq_sum w locs]
    apply List.sum_eq_zero
    intro x hx
    rw [List.mem_map] at hx
    obtain ⟨u, hu, hxu⟩ := hx
    rw [← hxu]
    exact childPageCount_eq_zero w u (hall u hu)
  · intro url doc rest hu hne
    rw [tryCandidates_success w url rest doc hu, if_neg (by simp [hne])]

/-- C6 witness: the sum clause applied to a three-child index where the
middle child fails: the expander returns the sum of the other two. -/
theorem C6_witness : expandIndex wMix ["u1", "u2", "u3"] = 30 :=
  ((C6_index_expander_sum wMix ["u1", "u2", "u3"]).1).trans (by decide)

/-- C7 counterexample: an index document with two `sitemap` entries, one of
them lacking a `loc` child, is labelled `"Sitemap index (1 sitemaps)"` -
the code counts the collected `loc` children, not the entries found, so the
claimed label `"Sitemap index (2 sitemaps)"` is not produced. -/
theorem C7_counterexample :
    (get_page_count (some "a.com") w7).1 = (7, "Sitemap index (1 sitemaps)") ∧
    (⟨[some "https://a.com/s1.xml", none], 0⟩ : SitemapDoc).sitemaps.length = 2 ∧
    "Sitemap index (1 sitemaps)" ≠ mkIndexMethod 2 := by decide

/-- C7 (amended): a successfully parsed candidate with one or more
`sitemap` entries is classified as an index with method
`"Sitemap index (<N> sitemaps)"` where N is the number of entries that have
a `loc` child (not capped at the 10-child fetch bound, and not the number
successfully fetched); a document without `sitemap` entries is classified
as a leaf counting its `url` elements with method `"Single sitemap"`. -/
theorem C7_index_classification (w : World) (url : String) (rest : List String)
    (doc : SitemapDoc) (h : w url = .resp 200 (.xml doc)) :
    (doc.sitemaps = [] →
      tryCandidates w (url :: rest) = ⟨doc.urls, "Single sitemap", [url]⟩) ∧
    (¬ doc.sitemaps = [] →
      (tryCandidates w (url :: rest)).method =
        mkIndexMethod ((doc.sitemaps.filterMap id).length) ∧
      (tryCandidates w (url :: rest)).total =
        expandIndex w ((doc.sitemaps.filterMap id).take 10)) := by
  rw [tryCandidates_success w url rest doc h]
  constructor
  · intro he
    rw [if_pos (by simp [he])]
  · intro hne
    rw [if_neg (by simp [hne])]
    exact ⟨rfl, rfl⟩

/-- C7 witness: a 12-entry index is labelled with N = 12 even though only
10 children are fetched. -/
theorem C7_witness :
    (tryCandidates wTwelve ["https://a.com/sitemap.xml"]).method =
      mkIndexMethod 12 :=
  (((C7_index_classification wTwelve "https://a.com/sitemap.xml" [] docTwelve
      (by decide)).2 (by decide)).1).trans (by decide)

/-- C8: `clean_domain` maps the three example inputs to `"example.com"`,
maps `""` and `"   "` to nothing, and agrees on every input with the
normalization pipeline as the spec words it (trim; take the URL host under
an HTTP/HTTPS scheme; lower-case; strip a leading `www.`; strip trailing
`/`; drop an empty result). -/
theorem C8_clean_domain_spec :
    clean_domain (some "https://WWW.Example.com/") = some "example.com" ∧
    clean_domain (some "example.com") = some "example.com" ∧
    clean_domain (some "www.example.com") = some "example.com" ∧
    clean_domain (some "") = none ∧
    clean_domain (some "   ") = none ∧
    ∀ s : String, clean_domain (some s) = spec_normalize s := by
  refine ⟨by decide, by decide, by decide, by decide, by decide, ?_⟩
  intro s
  by_cases hs : s = ""
  · subst hs
    decide
  · simp only [clean_domain, spec_normalize, if_neg hs]

/-- C9 counterexample: first candidate parses as a leaf sitemap with zero
`url` elements and the homepage answers 404 without raising: the fallback
runs (the homepage is requested) yet the final result is
`(0, "Single sitemap")`, which the claim says is never returned. -/
theorem C9_counterexample :
    (get_page_count (some "a.com") w9).1 = (0, "Single sitemap") ∧
    homepageUrl "a.com" ∈ (get_page_count (some "a.com") w9).2 := by decide

/-- C9 (amended): when the first candidate parses as a leaf sitemap with
zero `url` elements, the homepage fallback still runs; a 200 probe response
overwrites the result to `(1, "Homepage only (estimate)")`, a probe
exception yields `(0, "Domain inaccessible")`, but a non-200 probe response
leaves the result `(0, "Single sitemap")`. -/
theorem C9_leaf_zero_fallback (w : World) (d : String) (hd : ¬ d = "")
    (doc : SitemapDoc)
    (h : w ("https://" ++ d ++ "/sitemap.xml") = .resp 200 (.xml doc))
    (hleaf : doc.sitemaps = []) (hzero : doc.urls = 0) :
    (get_page_count (some d) w).2 =
      ["https://" ++ d ++ "/sitemap.xml", homepageUrl d] ∧
    ((∃ b, w (homepageUrl d) = .resp 200 b) →
      (get_page_count (some d) w).1 = (1, "Homepage only (estimate)")) ∧
    (w (homepageUrl d) = .exn →
      (get_page_count (some d) w).1 = (0, "Domain inaccessible")) ∧
    (∀ st b, w (homepageUrl d) = .resp st b → ¬ st = 200 →
      (get_page_count (some d) w).1 = (0, "Single sitemap")) := by
  have hres : tryCandidates w (candidateUrls d) =
      ⟨doc.urls, "Single sitemap", ["https://" ++ d ++ "/sitemap.xml"]⟩ := by
    have := tryCandidates_success w ("https://" ++ d ++ "/sitemap.xml")
      ["https://www." ++ d ++ "/sitemap.xml",
       "https://" ++ d ++ "/sitemap_index.xml",
       "https://www." ++ d ++ "/sitemap_index.xml"] doc h
    rw [if_pos (by simp [hleaf])] at this
    exact this
  simp only [get_page_count, if_neg hd, hres, hzero, if_pos rfl]
  refine ⟨rfl, ?_, ?_, ?_⟩
  · rintro ⟨b, hb⟩
    simp [fallbackProbe, hb]
  · intro hb
    simp [fallbackProbe, hb]
  · intro st b hb hst
    simp [fallbackProbe, hb, if_neg hst]

/-- C9 witness: the amended theorem's non-200 case applied to the network
`w9`. -/
theorem C9_witness : (get_page_count (some "a.com") w9).1 = (0, "Single sitemap") :=
  (C9_leaf_zero_fallback w9 "a.com" (by decide) ⟨[], 0⟩ (by decide) rfl rfl).2.2.2
    404 .malformed (by decide) (by decide)

/-- C10: a `None` or empty domain argument makes `get_page_count` return
`(0, "Invalid domain")` immediately, with no URL requested; and
`"Invalid domain"` lies outside the documented closed set of labels. -/
theorem C10_invalid_domain (d : Option String) (w : World)
    (h : d = none ∨ d = some "") :
    get_page_count d w = ((0, "Invalid domain"), []) ∧
    ¬ ClosedMethod "Invalid domain" := by
  constructor
  · rcases h with h | h <;> subst h <;> rfl
  · exact invalidDomain_not_closed

/-- C10 witness: the theorem applied to the `None` argument. -/
theorem C10_witness :
    get_page_count none w404 = ((0, "Invalid domain"), []) ∧
    ¬ ClosedMethod "Invalid domain" :=
  C10_invalid_domain none w404 (Or.inl rfl)

end PageCounter
